import Mathlib

/-!
Shallow embedding of the `evaluate` security-probe module of CDK
(namespace / seccomp / SELinux / AppArmor checks and the kernel-config
resolver), together with proofs of the specified properties.

Filesystem reads are modelled by `Option String` parameters (`none` =
the read failed) or by path-indexed functions `String → Option String`.
Each probe returns the list of finding messages it emits, in emission
order.  Go string primitives (`strings.HasPrefix`, `strings.Fields`,
`strings.TrimSpace`, `bufio.ScanLines`, …) are modelled as executable
functions over `String.data : List Char`.
-/

/-- Model of Go `unicode.IsSpace` restricted to the ASCII space class
(space, tab, newline, vertical tab, form feed, carriage return). -/
def goIsSpace (c : Char) : Bool :=
  c == ' ' || c == '\t' || c == '\n' || c == '\x0b' || c == '\x0c' || c == '\r'

/-- Model of Go `strings.HasPrefix s p`. -/
def goStartsWith (s p : String) : Bool :=
  p.data.isPrefixOf s.data

/-- Model of Go `strings.TrimPrefix s p`: remove the leading `p` if present. -/
def goStripLeading (s p : String) : String :=
  if goStartsWith s p then ⟨s.data.drop p.data.length⟩ else s

/-- Model of Go `strings.Contains s sub` on character lists:
`sub` occurs as a contiguous subsequence of the haystack. -/
def containsSeq (needle : List Char) : List Char → Bool
  | [] => needle.isEmpty
  | c :: rest => needle.isPrefixOf (c :: rest) || containsSeq needle rest

/-- Model of Go `strings.Contains s sub`. -/
def goContains (s sub : String) : Bool :=
  containsSeq sub.data s.data

/-- Model of Go `strings.TrimSpace`. -/
def goTrimSpace (s : String) : String :=
  ⟨((s.data.dropWhile goIsSpace).reverse.dropWhile goIsSpace).reverse⟩

/-- Model of Go `strings.TrimRight(s, "\x00\n")`: trailing NUL and
newline bytes removed. -/
def goTrimRightNulNL (s : String) : String :=
  ⟨(s.data.reverse.dropWhile (fun c => c == '\x00' || c == '\n')).reverse⟩

/-- Split a character list at every newline, `splitOn`-style: the result
is always nonempty and has one token per newline-separated segment. -/
def splitOnNL : List Char → List (List Char)
  | [] => [[]]
  | c :: rest =>
    if c = '\n' then [] :: splitOnNL rest
    else
      match splitOnNL rest with
      | t :: ts => (c :: t) :: ts
      | [] => [[c]]

/-- Model of bufio's `dropCR`: remove one trailing carriage return. -/
def dropCR (l : List Char) : List Char :=
  if l.getLast? == some '\r' then l.dropLast else l

/-- Model of reading a text source line-by-line with `bufio.Scanner` and
`bufio.ScanLines`: split at newlines, drop the empty token produced by a
trailing newline, strip one trailing `\r` from every line. -/
def splitLines (s : String) : List String :=
  let ts := splitOnNL s.data
  let ts := if ts.getLast? == some [] then ts.dropLast else ts
  ts.map (fun t => ⟨dropCR t⟩)

/-- Accumulator pass of `goFields` (current word held reversed). -/
def fieldsAux : List Char → List Char → List String
  | [], cur => if cur.isEmpty then [] else [⟨cur.reverse⟩]
  | c :: rest, cur =>
    if goIsSpace c then
      if cur.isEmpty then fieldsAux rest [] else ⟨cur.reverse⟩ :: fieldsAux rest []
    else fieldsAux rest (c :: cur)

/-- Model of Go `strings.Fields`: whitespace-delimited tokens, no empties. -/
def goFields (s : String) : List String :=
  fieldsAux s.data []

/-- Model of Go `strconv.Quote` for one character (the `%q` verb), for the
printable-ASCII and common-escape cases. -/
def goQuoteChar (c : Char) : String :=
  if c = '"' then "\\\""
  else if c = '\\' then "\\\\"
  else if c = '\n' then "\\n"
  else if c = '\t' then "\\t"
  else if c = '\r' then "\\r"
  else String.singleton c

/-- Model of Go `%q` formatting of a string. -/
def goQuote (s : String) : String :=
  "\"" ++ String.join (s.data.map goQuoteChar) ++ "\""

/-- `matchConfigLine` from the source: does `line` set the config option
`key`?  `key=VALUE` lines yield `(VALUE, true)`; the exact line
`# key is not set` yields `("n", true)`; anything else `("", false)`. -/
def matchConfigLine (line key : String) : String × Bool :=
  if goStartsWith line (key ++ "=") then (goStripLeading line (key ++ "="), true)
  else if line == "# " ++ key ++ " is not set" then ("n", true)
  else ("", false)

-- Basic facts about the string helpers.

theorem strExt {s t : String} (h : s.data = t.data) : s = t := by
  cases s; cases t; exact congrArg String.mk h

theorem goStartsWith_append (p v : String) : goStartsWith (p ++ v) p = true := by
  unfold goStartsWith
  rw [List.isPrefixOf_iff_prefix, String.data_append]
  exact List.prefix_append p.data v.data

theorem goStripLeading_append (p v : String) : goStripLeading (p ++ v) p = v := by
  unfold goStripLeading
  rw [goStartsWith_append]
  apply strExt
  show ((p ++ v).data.drop p.data.length) = v.data
  rw [String.data_append]
  exact List.drop_left p.data v.data

theorem goStartsWith_eq_append {s p : String} (h : goStartsWith s p = true) :
    ∃ v : String, s = p ++ v := by
  unfold goStartsWith at h
  rw [List.isPrefixOf_iff_prefix] at h
  obtain ⟨t, ht⟩ := h
  refine ⟨⟨t⟩, strExt ?_⟩
  rw [String.data_append]
  exact ht.symm

/-- The "not set" comment line never starts with `key ++ "="`: a prefix
would need one more `'='` character than the whole line contains. -/
theorem notSet_no_eq_prefix (key : String) :
    goStartsWith ("# " ++ key ++ " is not set") (key ++ "=") = false := by
  by_contra hcon
  rw [Bool.not_eq_false] at hcon
  unfold goStartsWith at hcon
  rw [List.isPrefixOf_iff_prefix] at hcon
  have hcount := hcon.sublist.count_le '='
  rw [String.data_append, String.data_append, String.data_append] at hcount
  rw [List.count_append, List.count_append, List.count_append] at hcount
  have h1 : List.count '=' "=".data = 1 := by decide
  have h2 : List.count '=' "# ".data = 0 := by decide
  have h3 : List.count '=' " is not set".data = 0 := by decide
  rw [h1, h2, h3] at hcount
  omega

/-- Claim C2: for every key `K` and value `V`, `matchConfigLine ("K=V") K`
returns `(V, true)` with `V` the remainder after `"K="`; the exact line
`"# K is not set"` yields `("n", true)`; and any line of neither shape is
not matched. -/
theorem matchConfigLine_spec (key v line : String)
    (h1 : ¬ ∃ w : String, line = key ++ "=" ++ w)
    (h2 : line ≠ "# " ++ key ++ " is not set") :
    matchConfigLine (key ++ "=" ++ v) key = (v, true) ∧
    matchConfigLine ("# " ++ key ++ " is not set") key = ("n", true) ∧
    (matchConfigLine line key).2 = false := by
  refine ⟨?_, ?_, ?_⟩
  · rw [matchConfigLine, goStartsWith_append, goStripLeading_append]
    rfl
  · rw [matchConfigLine, notSet_no_eq_prefix]
    simp
  · rcases hp : goStartsWith line (key ++ "=") with _ | _
    · rcases he : line == "# " ++ key ++ " is not set" with _ | _
      · rw [matchConfigLine, hp, he]
        simp
      · exact absurd (eq_of_beq he) h2
    · obtain ⟨w, hw⟩ := goStartsWith_eq_append hp
      exact absurd ⟨w, hw⟩ h1

/-- Witness for C2 at `K = "A"`, `V = "y"` and the unmatched line `"z"`. -/
theorem matchConfigLine_spec_witness :
    matchConfigLine ("A" ++ "=" ++ "y") "A" = ("y", true) ∧
    matchConfigLine ("# " ++ "A" ++ " is not set") "A" = ("n", true) ∧
    (matchConfigLine "z" "A").2 = false := by
  refine matchConfigLine_spec "A" "y" "z" ?_ (by decide)
  rintro ⟨w, hw⟩
  have h3 := congrArg String.length hw
  rw [String.length_append, String.length_append] at h3
  have e1 : "z".length = 1 := rfl
  have e2 : "A".length = 1 := rfl
  have e3 : "=".length = 1 := rfl
  rw [e1, e2, e3] at h3
  omega

/-- The scanning loop shared by both branches of `readKernelConfigOption`:
return on the first line the Config Line Matcher accepts. -/
def scanLinesForKey (lines : List String) (key : String) : String × Bool :=
  match lines with
  | [] => ("", false)
  | l :: rest =>
    match matchConfigLine l key with
    | (v, true) => (v, true)
    | (_, false) => scanLinesForKey rest key

/-- The filesystem state `readKernelConfigOption` depends on.
`configGz = some content` means `/proc/config.gz` could be opened AND its
gzip stream decompressed to `content`; `none` covers both an open failure
and a gzip-header failure (the code falls through to the fallback in both
cases).  `bootConfig` maps a path to the content of the plain-text file
at that path, `none` when it cannot be opened. -/
structure KernelConfigFS where
  configGz : Option String
  osrelease : Option String
  bootConfig : String → Option String

/-- `readKernelConfigOption` from the source: prefer `/proc/config.gz`;
when that branch is taken its scan result is returned outright; otherwise
derive `/boot/config-<release>` from `/proc/sys/kernel/osrelease` and
scan it; every failure yields `("", false)`. -/
def readKernelConfigOption (fs : KernelConfigFS) (key : String) : String × Bool :=
  match fs.configGz with
  | some content => scanLinesForKey (splitLines content) key
  | none =>
    match fs.osrelease with
    | none => ("", false)
    | some uname =>
      match fs.bootConfig ("/boot/config-" ++ goTrimSpace uname) with
      | none => ("", false)
      | some content2 => scanLinesForKey (splitLines content2) key

theorem scanLinesForKey_first_match (key : String) (pre : List String)
    (l : String) (post : List String)
    (hpre : ∀ x ∈ pre, (matchConfigLine x key).2 = false)
    (hl : (matchConfigLine l key).2 = true) :
    scanLinesForKey (pre ++ l :: post) key = ((matchConfigLine l key).1, true) := by
  induction pre with
  | nil =>
    rw [List.nil_append, scanLinesForKey]
    rcases hm : matchConfigLine l key with ⟨v, b⟩
    rcases b with _ | _
    · rw [hm] at hl; exact absurd hl (by simp)
    · simp
  | cons x xs ih =>
    rw [List.cons_append, scanLinesForKey]
    rcases hm : matchConfigLine x key with ⟨v, b⟩
    rcases b with _ | _
    · exact ih (fun y hy => hpre y (List.mem_cons_of_mem x hy))
    · have := hpre x (List.mem_cons_self x xs)
      rw [hm] at this
      exact absurd this (by simp)

theorem scanLinesForKey_no_match (key : String) (lines : List String)
    (h : ∀ x ∈ lines, (matchConfigLine x key).2 = false) :
    scanLinesForKey lines key = ("", false) := by
  induction lines with
  | nil => rfl
  | cons x xs ih =>
    rw [scanLinesForKey]
    rcases hm : matchConfigLine x key with ⟨v, b⟩
    rcases b with _ | _
    · exact ih (fun y hy => h y (List.mem_cons_of_mem x hy))
    · have := h x (List.mem_cons_self x xs)
      rw [hm] at this
      exact absurd this (by simp)

/-- Claim C3: when `/proc/config.gz` is openable and decompressible and
contains a line matching the key (first such line `l`, after unmatched
lines `pre`), the resolver returns that line's value with `found = true`,
and the result does not depend on the osrelease file or on any
`/boot/config-<release>` fallback content. -/
theorem readKernelConfigOption_gz_priority
    (content key : String) (o o' : Option String) (b b' : String → Option String)
    (pre : List String) (l : String) (post : List String)
    (hsplit : splitLines content = pre ++ l :: post)
    (hpre : ∀ x ∈ pre, (matchConfigLine x key).2 = false)
    (hl : (matchConfigLine l key).2 = true) :
    readKernelConfigOption ⟨some content, o, b⟩ key = ((matchConfigLine l key).1, true) ∧
    readKernelConfigOption ⟨some content, o, b⟩ key =
      readKernelConfigOption ⟨some content, o', b'⟩ key := by
  constructor
  · show scanLinesForKey (splitLines content) key = _
    rw [hsplit]
    exact scanLinesForKey_first_match key pre l post hpre hl
  · rfl

/-- Witness for C3: the compressed source holds `CONFIG_B=y` while the
boot-partition fallback holds `# CONFIG_B is not set`; the compressed
value wins. -/
theorem readKernelConfigOption_gz_priority_witness :
    readKernelConfigOption
      ⟨some "CONFIG_A=m\nCONFIG_B=y\n", some "5.4.0",
        fun _ => some "# CONFIG_B is not set"⟩ "CONFIG_B" = ("y", true) := by
  have h := readKernelConfigOption_gz_priority "CONFIG_A=m\nCONFIG_B=y\n" "CONFIG_B"
    (some "5.4.0") none (fun _ => some "# CONFIG_B is not set") (fun _ => none)
    ["CONFIG_A=m"] "CONFIG_B=y" [] (by decide) (by decide) (by decide)
  have hv : (matchConfigLine "CONFIG_B=y" "CONFIG_B").1 = "y" := by decide
  rw [hv] at h
  exact h.1

/-- Claim C9: with the compressed source unavailable or corrupt, the
release identifier readable, and no boot-config file at the derived
path, resolution returns `("", false)` as an ordinary result (the
resolver is a total function: no failure is fatal). -/
theorem readKernelConfigOption_fallback_missing
    (key r : String) (b : String → Option String)
    (hb : b ("/boot/config-" ++ goTrimSpace r) = none) :
    readKernelConfigOption ⟨none, some r, b⟩ key = ("", false) := by
  show (match b ("/boot/config-" ++ goTrimSpace r) with
        | none => (("", false) : String × Bool)
        | some content2 => scanLinesForKey (splitLines content2) key) = ("", false)
  rw [hb]

/-- Witness for C9 at key `CONFIG_X`, release `"6.1.0\n"`, and an empty
boot directory. -/
theorem readKernelConfigOption_fallback_missing_witness :
    readKernelConfigOption ⟨none, some "6.1.0\n", fun _ => none⟩ "CONFIG_X" = ("", false) :=
  readKernelConfigOption_fallback_missing "CONFIG_X" "6.1.0\n" (fun _ => none) rfl

/-- Claim C10: when the compressed source opens and decompresses but no
line in it matches the key, the resolver returns `("", false)` based on
the compressed content alone; the plain-text fallback is never consulted
(the result is independent of the osrelease and boot-config sources). -/
theorem readKernelConfigOption_gz_exclusive
    (content key : String) (o o' : Option String) (b b' : String → Option String)
    (h : ∀ x ∈ splitLines content, (matchConfigLine x key).2 = false) :
    readKernelConfigOption ⟨some content, o, b⟩ key = ("", false) ∧
    readKernelConfigOption ⟨some content, o, b⟩ key =
      readKernelConfigOption ⟨some content, o', b'⟩ key := by
  constructor
  · exact scanLinesForKey_no_match key (splitLines content) h
  · rfl

/-- Witness for C10: the compressed source lacks `CONFIG_B` although the
boot-partition fallback would provide it; the result is still not-found. -/
theorem readKernelConfigOption_gz_exclusive_witness :
    readKernelConfigOption
      ⟨some "CONFIG_A=y\n", some "5.4.0", fun _ => some "CONFIG_B=y"⟩ "CONFIG_B" =
      ("", false) :=
  (readKernelConfigOption_gz_exclusive "CONFIG_A=y\n" "CONFIG_B"
    (some "5.4.0") none (fun _ => some "CONFIG_B=y") (fun _ => none) (by decide)).1

/-- The `switch parts[1]` of `CheckSeccompStatus`: map a mode token to
its finding message. -/
def seccompModeMsg (m : String) : String :=
  if m == "0" then "Seccomp: disabled"
  else if m == "1" then "Seccomp: strict mode (1)"
  else if m == "2" then "Seccomp: filter mode (2)"
  else "Seccomp: unknown value " ++ m

/-- The line-scanning loop of `CheckSeccompStatus`: on the first line
with the `Seccomp:` prefix, report from its second field (or report a
malformed line) and return; report "field not found" after the loop. -/
def seccompScan : List String → List String
  | [] => ["Seccomp: field not found in /proc/self/status (kernel may not support Seccomp)"]
  | line :: rest =>
    if goStartsWith line "Seccomp:" then
      match goFields line with
      | _ :: m :: _ => [seccompModeMsg m]
      | _ => ["seccomp: malformed Seccomp line"]
    else seccompScan rest

/-- `CheckSeccompStatus` from the source; the argument is the content of
`/proc/self/status` (`none` = unreadable). -/
def CheckSeccompStatus (status : Option String) : List String :=
  match status with
  | none => ["seccomp: unable to read /proc/self/status"]
  | some data => seccompScan (splitLines data)

/-- `CheckSeccompKernelSupport` from the source: an unreadable status
file reports the I/O failure and returns; otherwise a substring test on
the whole status content decides the support finding, and a resolvable
`CONFIG_SECCOMP` appends its value as a second finding. -/
def CheckSeccompKernelSupport (status : Option String) (fs : KernelConfigFS) : List String :=
  match status with
  | none => ["seccomp: unable to read /proc/self/status"]
  | some data =>
    (if goContains data "Seccomp:" then "Seccomp: kernel supports Seccomp"
     else "Seccomp: kernel does NOT support Seccomp") ::
    (match readKernelConfigOption fs "CONFIG_SECCOMP" with
     | (val, true) => ["Seccomp: kernel config CONFIG_SECCOMP=" ++ val]
     | (_, false) => [])

theorem seccompScan_eq_find (lines : List String) :
    seccompScan lines =
      match lines.find? (fun l => goStartsWith l "Seccomp:") with
      | none => ["Seccomp: field not found in /proc/self/status (kernel may not support Seccomp)"]
      | some l =>
        match goFields l with
        | _ :: m :: _ => [seccompModeMsg m]
        | _ => ["seccomp: malformed Seccomp line"] := by
  induction lines with
  | nil => rfl
  | cons x xs ih =>
    rcases hp : goStartsWith x "Seccomp:" with _ | _
    · rw [seccompScan, hp, ih]
      simp [List.find?_cons, hp]
    · rw [seccompScan, hp]
      simp [List.find?_cons, hp]

theorem seccompModeMsg_cases (m : String) :
    seccompModeMsg m =
      if m = "0" then "Seccomp: disabled"
      else if m = "1" then "Seccomp: strict mode (1)"
      else if m = "2" then "Seccomp: filter mode (2)"
      else "Seccomp: unknown value " ++ m := by
  by_cases h0 : m = "0"
  · simp [seccompModeMsg, h0]
  · by_cases h1 : m = "1"
    · simp [seccompModeMsg, h1]
    · by_cases h2 : m = "2"
      · simp [seccompModeMsg, h2]
      · simp [seccompModeMsg, h0, h1, h2]

theorem seccompScan_length (lines : List String) : (seccompScan lines).length = 1 := by
  induction lines with
  | nil => rfl
  | cons x xs ih =>
    rw [seccompScan]
    split
    · split <;> rfl
    · exact ih

/-- Claim C5: for readable status content, the second whitespace field of
the first `Seccomp:`-prefixed line is classified `"0"` → disabled, `"1"`
→ strict, `"2"` → filter, anything else → unknown value; with no such
line the distinct "field not found" finding is emitted, and that finding
differs from the mode-`"0"` finding. -/
theorem CheckSeccompStatus_spec (content : String) :
    ((splitLines content).find? (fun l => goStartsWith l "Seccomp:") = none →
      CheckSeccompStatus (some content) =
        ["Seccomp: field not found in /proc/self/status (kernel may not support Seccomp)"]) ∧
    (∀ l t m rest,
      (splitLines content).find? (fun l => goStartsWith l "Seccomp:") = some l →
      goFields l = t :: m :: rest →
      CheckSeccompStatus (some content) =
        [if m = "0" then "Seccomp: disabled"
         else if m = "1" then "Seccomp: strict mode (1)"
         else if m = "2" then "Seccomp: filter mode (2)"
         else "Seccomp: unknown value " ++ m]) ∧
    "Seccomp: field not found in /proc/self/status (kernel may not support Seccomp)" ≠
      "Seccomp: disabled" := by
  refine ⟨?_, ?_, by decide⟩
  · intro hfind
    show seccompScan (splitLines content) = _
    rw [seccompScan_eq_find, hfind]
  · intro l t m rest hfind hfields
    show seccompScan (splitLines content) = _
    rw [seccompScan_eq_find, hfind]
    show (match goFields l with
          | _ :: m :: _ => [seccompModeMsg m]
          | _ => ["seccomp: malformed Seccomp line"]) = _
    rw [hfields, ← seccompModeMsg_cases]

/-- Witness for C5: a status file whose Seccomp line carries mode `2`. -/
theorem CheckSeccompStatus_spec_witness :
    CheckSeccompStatus (some "Name:\tcdk\nSeccomp:\t2\nCpus: 3\n") =
      ["Seccomp: filter mode (2)"] := by
  have h := (CheckSeccompStatus_spec "Name:\tcdk\nSeccomp:\t2\nCpus: 3\n").2.1
    "Seccomp:\t2" "Seccomp:" "2" [] (by decide) (by decide)
  rw [h]
  decide

/-- Claim C6: a `Seccomp:`-prefixed line with fewer than two whitespace
fields yields the "malformed line" finding; the embedding indexes the
field list only through a two-element pattern, and the probe is total,
always emitting exactly one finding. -/
theorem CheckSeccompStatus_malformed (content l : String)
    (hfind : (splitLines content).find? (fun x => goStartsWith x "Seccomp:") = some l)
    (hshort : (goFields l).length < 2) :
    CheckSeccompStatus (some content) = ["seccomp: malformed Seccomp line"] ∧
    ∀ status : Option String, (CheckSeccompStatus status).length = 1 := by
  constructor
  · show seccompScan (splitLines content) = _
    rw [seccompScan_eq_find, hfind]
    show (match goFields l with
          | _ :: m :: _ => [seccompModeMsg m]
          | _ => ["seccomp: malformed Seccomp line"]) = _
    rcases hf : goFields l with _ | ⟨t, _ | ⟨m, rest⟩⟩
    · rfl
    · rfl
    · rw [hf] at hshort
      simp at hshort
      omega
  · intro status
    rcases status with _ | data
    · rfl
    · exact seccompScan_length (splitLines data)

/-- Witness for C6: a status file whose Seccomp line has no value field. -/
theorem CheckSeccompStatus_malformed_witness :
    CheckSeccompStatus (some "Name:\tcdk\nSeccomp:\n") =
      ["seccomp: malformed Seccomp line"] :=
  (CheckSeccompStatus_malformed "Name:\tcdk\nSeccomp:\n" "Seccomp:"
    (by decide) (by decide)).1

/-- Counterexample to C4 as stated: with `/proc/self/status` unreadable
and `CONFIG_SECCOMP=y` resolvable from the kernel config, the probe
returns after the I/O-failure finding and the kernel-config finding is
NOT emitted — the status failure does suppress the config signal. -/
theorem CheckSeccompKernelSupport_counterexample :
    CheckSeccompKernelSupport none ⟨some "CONFIG_SECCOMP=y\n", none, fun _ => none⟩ =
      ["seccomp: unable to read /proc/self/status"] ∧
    readKernelConfigOption ⟨some "CONFIG_SECCOMP=y\n", none, fun _ => none⟩
      "CONFIG_SECCOMP" = ("y", true) ∧
    "Seccomp: kernel config CONFIG_SECCOMP=y" ∉
      CheckSeccompKernelSupport none ⟨some "CONFIG_SECCOMP=y\n", none, fun _ => none⟩ := by
  refine ⟨rfl, by decide, by decide⟩

/-- Claim C4 as amended: when the status file is readable the two signals
are independent — the support finding (the head) is determined solely by
the status content, and the config finding (the tail) solely by the
kernel-config sources, each emitted whenever its own source yields it;
when the status file is unreadable the probe emits only the I/O-failure
finding and does not consult the kernel config. -/
theorem CheckSeccompKernelSupport_spec (data data2 : String) (fs fs2 : KernelConfigFS) :
    CheckSeccompKernelSupport none fs = ["seccomp: unable to read /proc/self/status"] ∧
    (CheckSeccompKernelSupport (some data) fs).head? =
      (CheckSeccompKernelSupport (some data) fs2).head? ∧
    (CheckSeccompKernelSupport (some data) fs).tail =
      (CheckSeccompKernelSupport (some data2) fs).tail ∧
    (goContains data "Seccomp:" = true →
      (CheckSeccompKernelSupport (some data) fs).head? =
        some "Seccomp: kernel supports Seccomp") ∧
    (goContains data "Seccomp:" = false →
      (CheckSeccompKernelSupport (some data) fs).head? =
        some "Seccomp: kernel does NOT support Seccomp") ∧
    (∀ v, readKernelConfigOption fs "CONFIG_SECCOMP" = (v, true) →
      (CheckSeccompKernelSupport (some data) fs).tail =
        ["Seccomp: kernel config CONFIG_SECCOMP=" ++ v]) ∧
    ((readKernelConfigOption fs "CONFIG_SECCOMP").2 = false →
      (CheckSeccompKernelSupport (some data) fs).tail = []) := by
  refine ⟨rfl, rfl, rfl, ?_, ?_, ?_, ?_⟩
  · intro h
    show (((if goContains data "Seccomp:" then "Seccomp: kernel supports Seccomp"
            else "Seccomp: kernel does NOT support Seccomp") ::
           (match readKernelConfigOption fs "CONFIG_SECCOMP" with
            | (val, true) => ["Seccomp: kernel config CONFIG_SECCOMP=" ++ val]
            | (_, false) => [])) : List String).head? = _
    rw [h]
    simp
  · intro h
    show (((if goContains data "Seccomp:" then "Seccomp: kernel supports Seccomp"
            else "Seccomp: kernel does NOT support Seccomp") ::
           (match readKernelConfigOption fs "CONFIG_SECCOMP" with
            | (val, true) => ["Seccomp: kernel config CONFIG_SECCOMP=" ++ val]
            | (_, false) => [])) : List String).head? = _
    rw [h]
    simp
  · intro v h
    show (match readKernelConfigOption fs "CONFIG_SECCOMP" with
          | (val, true) => ["Seccomp: kernel config CONFIG_SECCOMP=" ++ val]
          | (_, false) => ([] : List String)) = _
    rw [h]
  · intro h
    show (match readKernelConfigOption fs "CONFIG_SECCOMP" with
          | (val, true) => ["Seccomp: kernel config CONFIG_SECCOMP=" ++ val]
          | (_, false) => ([] : List String)) = _
    rcases hr : readKernelConfigOption fs "CONFIG_SECCOMP" with ⟨v, b⟩
    rw [hr] at h
    rcases b with _ | _
    · rfl
    · exact absurd h (by simp)

/-- Witness for the amended C4: readable status containing the field and
a resolvable `CONFIG_SECCOMP=y` yield both findings. -/
theorem CheckSeccompKernelSupport_spec_witness :
    (CheckSeccompKernelSupport (some "Seccomp:\t0\n")
        ⟨some "CONFIG_SECCOMP=y\n", none, fun _ => none⟩).head? =
      some "Seccomp: kernel supports Seccomp" ∧
    (CheckSeccompKernelSupport (some "Seccomp:\t0\n")
        ⟨some "CONFIG_SECCOMP=y\n", none, fun _ => none⟩).tail =
      ["Seccomp: kernel config CONFIG_SECCOMP=y"] := by
  have h := CheckSeccompKernelSupport_spec "Seccomp:\t0\n" "x"
    ⟨some "CONFIG_SECCOMP=y\n", none, fun _ => none⟩ ⟨none, none, fun _ => none⟩
  exact ⟨h.2.2.2.1 (by decide), h.2.2.2.2.2.1 "y" (by decide)⟩

/-- `namespaceTypes` from the source: the namespaces relevant to
container isolation, in fixed order. -/
def namespaceTypes : List String :=
  ["cgroup", "ipc", "mnt", "net", "pid", "uts"]

/-- One iteration of the `CheckNamespaceIsolation` loop: read both
namespace symlinks for kind `ns` (via `readlink : path → target`) and
produce the finding. -/
def namespaceFinding (readlink : String → Option String) (ns : String) : String :=
  match readlink ("/proc/1/ns/" ++ ns), readlink ("/proc/self/ns/" ++ ns) with
  | some initTarget, some selfTarget =>
    if initTarget != selfTarget then
      "\t" ++ ns ++ ": isolated (" ++ selfTarget ++ ")"
    else
      "\t" ++ ns ++ ": NOT isolated (shared with host, " ++ selfTarget ++ ")"
  | _, _ => "\t" ++ ns ++ ": unable to read namespace links"

/-- The loop of `CheckNamespaceIsolation` over the namespace kinds. -/
def nsLoop (readlink : String → Option String) : List String → List String
  | [] => []
  | ns :: rest => namespaceFinding readlink ns :: nsLoop readlink rest

/-- `CheckNamespaceIsolation` from the source: header line, then one
finding per namespace kind in the fixed order. -/
def CheckNamespaceIsolation (readlink : String → Option String) : List String :=
  "Namespace isolation status:" :: nsLoop readlink namespaceTypes

theorem namespaceFinding_cases (readlink : String → Option String) (ns : String) :
    namespaceFinding readlink ns =
      match readlink ("/proc/1/ns/" ++ ns), readlink ("/proc/self/ns/" ++ ns) with
      | some initTarget, some selfTarget =>
        if initTarget = selfTarget then
          "\t" ++ ns ++ ": NOT isolated (shared with host, " ++ selfTarget ++ ")"
        else "\t" ++ ns ++ ": isolated (" ++ selfTarget ++ ")"
      | _, _ => "\t" ++ ns ++ ": unable to read namespace links" := by
  unfold namespaceFinding
  rcases readlink ("/proc/1/ns/" ++ ns) with _ | i
  · rfl
  · rcases readlink ("/proc/self/ns/" ++ ns) with _ | s
    · rfl
    · by_cases h : i = s <;> simp [h]

/-- Claim C7: for the six namespace kinds in the fixed order cgroup, ipc,
mnt, net, pid, uts, the probe emits "isolated" when both symlink targets
read successfully and differ, "NOT isolated (shared with host, …)" with
the identity string when both read and are equal, and "unable to read
namespace links" for exactly that kind when either read fails; each
kind's finding depends only on that kind's two symlinks, so a failure on
one kind does not affect the others. -/
theorem CheckNamespaceIsolation_spec (readlink : String → Option String) :
    CheckNamespaceIsolation readlink =
      "Namespace isolation status:" ::
        (["cgroup", "ipc", "mnt", "net", "pid", "uts"].map (fun ns =>
          match readlink ("/proc/1/ns/" ++ ns), readlink ("/proc/self/ns/" ++ ns) with
          | some initTarget, some selfTarget =>
            if initTarget = selfTarget then
              "\t" ++ ns ++ ": NOT isolated (shared with host, " ++ selfTarget ++ ")"
            else "\t" ++ ns ++ ": isolated (" ++ selfTarget ++ ")"
          | _, _ => "\t" ++ ns ++ ": unable to read namespace links")) := by
  show "Namespace isolation status:" :: nsLoop readlink namespaceTypes = _
  rw [namespaceTypes]
  simp only [nsLoop, List.map, namespaceFinding_cases]

/-- `CheckSELinux` from the source; arguments are the contents of
`/sys/fs/selinux/enforce` and `/proc/self/attr/current` (`none` =
unreadable).  An unreadable enforce file reports "not detected" and
returns without touching the attribute; otherwise the trimmed enforce
value is classified and a readable attribute adds the label finding. -/
def CheckSELinux (enforce attrCurrent : Option String) : List String :=
  match enforce with
  | none => ["SELinux: not detected (no selinuxfs)"]
  | some data =>
    (if goTrimSpace data == "1" then "SELinux: enforcing"
     else if goTrimSpace data == "0" then "SELinux: permissive (loaded but not enforcing)"
     else "SELinux: unexpected enforce value " ++ goQuote (goTrimSpace data)) ::
    (match attrCurrent with
     | some label => ["SELinux: container label: " ++ goTrimRightNulNL label]
     | none => [])

/-- Claim C8: an unreadable enforce file yields only the "not detected"
finding (for every state of the attribute source, which is not read); a
readable one classifies its trimmed value `"1"` → enforcing, `"0"` →
permissive, anything else → "unexpected enforce value" with the value
quoted; the label finding is then emitted with trailing NUL/newline
stripped exactly when the attribute is readable, and
`"docker_t\x00\n"` trims to `"docker_t"`. -/
theorem CheckSELinux_spec (enforce attr : Option String) :
    CheckSELinux none attr = ["SELinux: not detected (no selinuxfs)"] ∧
    (∀ v, enforce = some v →
      CheckSELinux enforce attr =
        (if goTrimSpace v = "1" then "SELinux: enforcing"
         else if goTrimSpace v = "0" then "SELinux: permissive (loaded but not enforcing)"
         else "SELinux: unexpected enforce value " ++ goQuote (goTrimSpace v)) ::
        (match attr with
         | some label => ["SELinux: container label: " ++ goTrimRightNulNL label]
         | none => [])) ∧
    goTrimRightNulNL "docker_t\x00\n" = "docker_t" := by
  refine ⟨rfl, ?_, by decide⟩
  intro v hv
  subst hv
  by_cases h1 : goTrimSpace v = "1"
  · simp [CheckSELinux, h1]
  · by_cases h0 : goTrimSpace v = "0"
    · simp [CheckSELinux, h0, h1]
    · simp [CheckSELinux, h0, h1]

/-- Witness for C8: a permissive enforce value and a NUL/newline
terminated docker label. -/
theorem CheckSELinux_spec_witness :
    CheckSELinux (some "0\n") (some "docker_t\x00\n") =
      ["SELinux: permissive (loaded but not enforcing)",
       "SELinux: container label: docker_t"] := by
  have h := (CheckSELinux_spec (some "0\n") (some "docker_t\x00\n")).2.1 "0\n" rfl
  rw [h]
  decide

/-- Block 1 of `CheckAppArmor`: the kernel compile option. -/
def appArmorConfigGroup (fs : KernelConfigFS) : List String :=
  match readKernelConfigOption fs "CONFIG_SECURITY_APPARMOR" with
  | (val, true) => ["AppArmor: kernel config CONFIG_SECURITY_APPARMOR=" ++ val]
  | (_, false) => ["AppArmor: kernel config not available"]

/-- Block 2 of `CheckAppArmor`: boot parameters.  The whole block is
guarded by `err == nil`, with no else branch: an unreadable
`/proc/cmdline` emits nothing. -/
def appArmorBootGroup (cmdline : Option String) : List String :=
  match cmdline with
  | some params =>
    if goContains params "apparmor=1" || goContains params "security=apparmor" then
      ["AppArmor: enabled via boot parameters (" ++ goTrimSpace params ++ ")"]
    else if goContains params "apparmor=0" then
      ["AppArmor: disabled via boot parameter apparmor=0"]
    else
      ["AppArmor: no explicit AppArmor boot parameter found"]
  | none => []

/-- Block 3 of `CheckAppArmor`: runtime module status. -/
def appArmorRuntimeGroup (enabled : Option String) : List String :=
  match enabled with
  | some data =>
    if goTrimSpace data == "Y" then ["AppArmor: module is enabled (runtime)"]
    else ["AppArmor: module is loaded but disabled (runtime)"]
  | none => ["AppArmor: module not loaded"]

/-- Block 4 of `CheckAppArmor`: the container's AppArmor profile. -/
def appArmorProfileGroup (attrCurrent : Option String) : List String :=
  match attrCurrent with
  | some label =>
    if goTrimRightNulNL label == "" || goTrimRightNulNL label == "unconfined" then
      ["AppArmor: container is unconfined (no profile attached)"]
    else ["AppArmor: container profile: " ++ goTrimRightNulNL label]
  | none => ["AppArmor: unable to read container profile"]

/-- `CheckAppArmor` from the source: the four blocks run in sequence,
each reading only its own source.  Arguments: the kernel-config state,
then the contents of `/proc/cmdline`,
`/sys/module/apparmor/parameters/enabled` and `/proc/self/attr/current`
(`none` = unreadable). -/
def CheckAppArmor (fs : KernelConfigFS) (cmdline enabled attrCurrent : Option String) :
    List String :=
  (match readKernelConfigOption fs "CONFIG_SECURITY_APPARMOR" with
   | (val, true) => ["AppArmor: kernel config CONFIG_SECURITY_APPARMOR=" ++ val]
   | (_, false) => ["AppArmor: kernel config not available"]) ++
  (match cmdline with
   | some params =>
     if goContains params "apparmor=1" || goContains params "security=apparmor" then
       ["AppArmor: enabled via boot parameters (" ++ goTrimSpace params ++ ")"]
     else if goContains params "apparmor=0" then
       ["AppArmor: disabled via boot parameter apparmor=0"]
     else
       ["AppArmor: no explicit AppArmor boot parameter found"]
   | none => []) ++
  (match enabled with
   | some data =>
     if goTrimSpace data == "Y" then ["AppArmor: module is enabled (runtime)"]
     else ["AppArmor: module is loaded but disabled (runtime)"]
   | none => ["AppArmor: module not loaded"]) ++
  (match attrCurrent with
   | some label =>
     if goTrimRightNulNL label == "" || goTrimRightNulNL label == "unconfined" then
       ["AppArmor: container is unconfined (no profile attached)"]
     else ["AppArmor: container profile: " ++ goTrimRightNulNL label]
   | none => ["AppArmor: unable to read container profile"])

/-- Counterexample to C1 as stated: with `/proc/cmdline` unreadable (and
the other three sources in ordinary states) the probe emits three
findings, not four — the boot-parameter finding is silently omitted. -/
theorem CheckAppArmor_counterexample :
    CheckAppArmor ⟨none, none, fun _ => none⟩ none (some "Y\n") (some "unconfined\n") =
      ["AppArmor: kernel config not available",
       "AppArmor: module is enabled (runtime)",
       "AppArmor: container is unconfined (no profile attached)"] ∧
    (CheckAppArmor ⟨none, none, fun _ => none⟩ none (some "Y\n")
        (some "unconfined\n")).length ≠ 4 := by
  refine ⟨by decide, by decide⟩

/-- Claim C1 as amended: `CheckAppArmor` is the concatenation of four
independently-sourced blocks; the kernel-config, runtime-status and
profile blocks each emit exactly one finding for every state of their
sources, while the boot-parameter block emits exactly one finding when
`/proc/cmdline` is readable and none when it is unreadable, so the probe
emits four findings in the readable case and three otherwise; no block's
failure affects another block's finding. -/
theorem CheckAppArmor_spec (fs : KernelConfigFS) (cmdline enabled attr : Option String) :
    CheckAppArmor fs cmdline enabled attr =
      appArmorConfigGroup fs ++ appArmorBootGroup cmdline ++
        appArmorRuntimeGroup enabled ++ appArmorProfileGroup attr ∧
    (appArmorConfigGroup fs).length = 1 ∧
    (∀ p, (appArmorBootGroup (some p)).length = 1) ∧
    appArmorBootGroup none = [] ∧
    (appArmorRuntimeGroup enabled).length = 1 ∧
    (appArmorProfileGroup attr).length = 1 ∧
    (CheckAppArmor fs cmdline enabled attr).length = if cmdline.isSome then 4 else 3 := by
  have hconf : (appArmorConfigGroup fs).length = 1 := by
    rw [appArmorConfigGroup]
    rcases h : readKernelConfigOption fs "CONFIG_SECURITY_APPARMOR" with ⟨v, _ | _⟩ <;> rfl
  have hboot : ∀ p, (appArmorBootGroup (some p)).length = 1 := by
    intro p
    rw [appArmorBootGroup]
    split
    · rfl
    · split <;> rfl
  have hrun : (appArmorRuntimeGroup enabled).length = 1 := by
    rcases enabled with _ | d
    · rfl
    · rw [appArmorRuntimeGroup]
      split <;> rfl
  have hprof : (appArmorProfileGroup attr).length = 1 := by
    rcases attr with _ | l
    · rfl
    · rw [appArmorProfileGroup]
      split <;> rfl
  have hdecomp : CheckAppArmor fs cmdline enabled attr =
      appArmorConfigGroup fs ++ appArmorBootGroup cmdline ++
        appArmorRuntimeGroup enabled ++ appArmorProfileGroup attr := rfl
  refine ⟨hdecomp, hconf, hboot, rfl, hrun, hprof, ?_⟩
  rw [hdecomp]
  rcases cmdline with _ | p
  · simp [List.length_append, hconf, hrun, hprof, appArmorBootGroup]
  · simp [List.length_append, hconf, hrun, hprof, hboot p]

/-- Witness for the amended C1: all four sources readable gives four
findings; the same state with `/proc/cmdline` unreadable gives three. -/
theorem CheckAppArmor_spec_witness :
    (CheckAppArmor ⟨none, none, fun _ => none⟩ (some "ro quiet") (some "Y\n")
        (some "unconfined\n")).length = 4 ∧
    (CheckAppArmor ⟨none, none, fun _ => none⟩ none (some "Y\n")
        (some "unconfined\n")).length = 3 := by
  have h1 := (CheckAppArmor_spec ⟨none, none, fun _ => none⟩ (some "ro quiet")
    (some "Y\n") (some "unconfined\n")).2.2.2.2.2.2
  have h2 := (CheckAppArmor_spec ⟨none, none, fun _ => none⟩ none
    (some "Y\n") (some "unconfined\n")).2.2.2.2.2.2
  exact ⟨by rw [h1]; rfl, by rw [h2]; rfl⟩
